import Mathlib

/-!
Verification of the retail-analytics query-resolution pipeline: a shallow
embedding of the router (fallback heuristic and override), the constraint
planner, the template-driven SQL synthesizer, the execute-validate-repair
loop, the answer synthesizer and the citation builder, with theorems about
the routing override, loop bounds, repair steps, answer shaping and
citations.

All string work is done on the underlying character lists with structural
recursion, so every definition evaluates by kernel reduction.
-/

/-! ### Character classes and substring search (Python `in`, `re` classes) -/

/-- Regex word character, as in the `\w` class restricted to ASCII. -/
def wordChar (c : Char) : Bool :=
  c.isAlphanum || c == '_'

/-- Regex whitespace character, as in the `\s` class. -/
def spaceChar (c : Char) : Bool :=
  c == ' ' || c == '\t' || c == '\n' || c == '\r' || c == '\x0b' || c == '\x0c'

/-- ASCII lower-casing of one character, as Python `str.lower` acts on the
ASCII texts handled by this pipeline. -/
def lowerChar (c : Char) : Char :=
  if 65 ≤ c.toNat ∧ c.toNat ≤ 90 then Char.ofNat (c.toNat + 32) else c

/-- Python `str.lower`. -/
def lowerStr (s : String) : String :=
  ⟨s.data.map lowerChar⟩

/-- Python `str.strip` (whitespace removal at both ends). -/
def trimStr (s : String) : String :=
  ⟨((s.data.dropWhile spaceChar).reverse.dropWhile spaceChar).reverse⟩

/-- Does the first list occur as a leading segment of the second? -/
def prefixOfL : List Char → List Char → Bool
  | [], _ => true
  | _ :: _, [] => false
  | a :: as, b :: bs => a == b && prefixOfL as bs

/-- Does `needle` occur contiguously inside the list? -/
def subL (needle : List Char) : List Char → Bool
  | [] => prefixOfL needle []
  | c :: cs => prefixOfL needle (c :: cs) || subL needle cs

/-- Python `needle in hay` on strings: contiguous substring test. -/
def strHas (hay needle : String) : Bool :=
  subL needle.data hay.data

/-! ### Router (`HybridAgent._fallback_route`, `HybridAgent.route`) -/

/-- Keyword lists of `HybridAgent._fallback_route`. -/
def sql_signals : List String :=
  ["top", "revenue", "aov", "average order value", "margin", "quantity", "customer"]

/-- Document-side keyword list of `HybridAgent._fallback_route`. -/
def doc_signals : List String :=
  ["policy", "return window", "returns policy", "docs", "definition"]

/-- Deterministic keyword-heuristic route of `HybridAgent._fallback_route`. -/
def fallback_route (question : String) : String :=
  let q := lowerStr question
  if doc_signals.any (fun w => strHas q w) && !(sql_signals.any (fun w => strHas q w)) then
    "rag"
  else if sql_signals.any (fun w => strHas q w) then
    "hybrid"
  else
    "rag"

/-- Outcome of the language-model predictor call: it may raise, or return an
arbitrary label string (the empty string models a falsy `pred.route`). -/
inductive PredOutcome
  | raises
  | returns (s : String)
  deriving DecidableEq

/-- The validity check and structured-need override of `HybridAgent.route`,
applied to the normalized predicted label `r` and the heuristic `fallback`. -/
def resolveRoute (fallback r : String) : String :=
  if !(r == "rag" || r == "sql" || r == "hybrid") then fallback
  else if r != fallback && (fallback == "sql" || fallback == "hybrid") && r == "rag" then
    fallback
  else r

/-- `HybridAgent.route`: model prediction guarded by the fallback heuristic
and the structured-need override. -/
def routeAgent (question : String) (p : PredOutcome) : String :=
  let fallback := fallback_route question
  match p with
  | .raises => fallback
  | .returns s =>
    resolveRoute fallback (lowerStr (trimStr (if s == "" then fallback else s)))

example : fallback_route "Total revenue from Beverages in June 1997" = "hybrid" := by decide
example : routeAgent "Total revenue from Beverages in June 1997" (.returns "rag") = "hybrid" := by
  decide
example : routeAgent "Total revenue from Beverages in June 1997" (.returns "sql") = "sql" := by
  decide
example : fallback_route "What is the return window for unopened Beverages per policy?" = "rag" := by
  decide

/-! ### Data model -/

/-- Scalar value in a query-result cell: SQL NULL, integer, float (modelled
as a rational) or text. Python can parse some numeric strings with
`float`/`int`; the pipeline never feeds numeric strings to those casts, so
text is modelled as non-numeric. -/
inductive SVal
  | vNull
  | vInt (n : Int)
  | vFloat (q : ℚ)
  | vStr (s : String)
  deriving DecidableEq

/-- A result row: ordered column-name/value mapping. -/
abbrev Row := List (String × SVal)

/-- `SQLiteTool.execute` result shape. -/
structure SqlResult where
  success : Bool
  error : Option String := none
  columns : List String := []
  rows : List Row := []
  deriving DecidableEq

/-- Retrieved chunk as produced by `Retriever.search`. -/
structure Chunk where
  chunk_id : String
  source : String
  content : String
  score : ℚ
  deriving DecidableEq

/-- The `date_range` constraint value `{start, end}`. -/
structure DateRange where
  start : String
  «end» : String
  deriving DecidableEq

/-- The sparse constraint mapping produced by `HybridAgent.plan`. -/
structure Constraints where
  date_range : Option DateRange := none
  category : Option String := none
  kpi : Option String := none
  deriving DecidableEq

/-! ### Planner (`extract_first_date_range`, `extract_date_range`,
`extract_category`, `normalize_category`, `HybridAgent.plan`) -/

/-- Match `\d{4}-\d{2}-\d{2}` at the head of the list; return the matched
ten characters and the remainder. -/
def matchDateToken (l : List Char) : Option (List Char × List Char) :=
  match l with
  | y1 :: y2 :: y3 :: y4 :: h1 :: m1 :: m2 :: h2 :: d1 :: d2 :: rest =>
    if y1.isDigit && y2.isDigit && y3.isDigit && y4.isDigit && h1 == '-' &&
        m1.isDigit && m2.isDigit && h2 == '-' && d1.isDigit && d2.isDigit then
      some ([y1, y2, y3, y4, h1, m1, m2, h2, d1, d2], rest)
    else
      none
  | _ => none

/-- Match the separator alternation `(?:to|–|-)` at the head of the list. -/
def matchRangeSep (l : List Char) : Option (List Char) :=
  match l with
  | 't' :: 'o' :: rest => some rest
  | '–' :: rest => some rest
  | '-' :: rest => some rest
  | _ => none

/-- Try the whole two-date range pattern at the current position. -/
def matchRangeAt (l : List Char) : Option (String × String) :=
  match matchDateToken l with
  | none => none
  | some (d1, rest) =>
    match matchRangeSep (rest.dropWhile spaceChar) with
    | none => none
    | some rest2 =>
      match matchDateToken (rest2.dropWhile spaceChar) with
      | none => none
      | some (d2, _) => some (⟨d1⟩, ⟨d2⟩)

/-- Leftmost search for the two-date range pattern (Python `re.search`). -/
def scanRange : List Char → Option (String × String)
  | [] => none
  | c :: cs =>
    match matchRangeAt (c :: cs) with
    | some r => some r
    | none => scanRange cs

/-- `extract_first_date_range`: explicit range pattern first, then the two
named-campaign aliases. -/
def extract_first_date_range (text : String) : Option (String × String) :=
  if text == "" then none
  else
    match scanRange text.data with
    | some r => some r
    | none =>
      if strHas (lowerStr text) "summer beverages 1997" then
        some ("1997-06-01", "1997-06-30")
      else if strHas (lowerStr text) "winter classics 1997" then
        some ("1997-12-01", "1997-12-31")
      else none

/-- First extractable range over a list of texts. -/
def firstDateIn : List String → Option (String × String)
  | [] => none
  | t :: ts =>
    match extract_first_date_range t with
    | some dr => some dr
    | none => firstDateIn ts

/-- `extract_date_range`: question first, then each chunk content. -/
def extract_date_range (question : String) (chunks : List Chunk) :
    Option (String × String) :=
  firstDateIn (question :: chunks.map (·.content))

/-- The fixed category enumeration `KNOWN_CATEGORIES`. -/
def KNOWN_CATEGORIES : List String :=
  ["Beverages", "Condiments", "Confections", "Dairy Products",
   "Grains/Cereals", "Meat/Poultry", "Produce", "Seafood"]

/-- First known category occurring (case-insensitively) in a text. -/
def catIn (text : String) : Option String :=
  KNOWN_CATEGORIES.find? (fun cat => strHas (lowerStr text) (lowerStr cat))

/-- Chunk-content scan of `extract_category`. -/
def catInChunks : List Chunk → Option String
  | [] => none
  | c :: cs =>
    match catIn c.content with
    | some k => some k
    | none => catInChunks cs

/-- `extract_category`: question before chunk contents. -/
def extract_category (question : String) (chunks : List Chunk) : Option String :=
  match catIn question with
  | some k => some k
  | none => catInChunks chunks

/-- `normalize_category`: falsy input to None, else canonicalize by
substring match, else pass the raw value through. -/
def normalize_category (value : Option String) : Option String :=
  match value with
  | none => none
  | some s =>
    if s == "" then none
    else
      match KNOWN_CATEGORIES.find? (fun cat => strHas (lowerStr s) (lowerStr cat)) with
      | some c => some c
      | none => some s

/-- `HybridAgent.plan`: constraint extraction. Keys are set only for truthy
values, which the `Option` fields mirror. -/
def planAgent (question : String) (chunks : List Chunk) : Constraints :=
  let date_range := extract_date_range question chunks
  let normalized := normalize_category (extract_category question chunks)
  let q := lowerStr question
  let kpi :=
    if strHas q "aov" || strHas q "average order value" then some "aov"
    else if strHas q "gross margin" || strHas q "margin" then some "gross_margin"
    else if strHas q "revenue" then some "revenue"
    else none
  { date_range := date_range.map (fun dr => ⟨dr.1, dr.2⟩)
    category :=
      match normalized with
      | some s => if s == "" then none else some s
      | none => none
    kpi := kpi }

example :
    planAgent "Total revenue from Beverages in June 1997"
      [⟨"marketing_calendar.md::chunk_0", "marketing_calendar.md",
        "Summer Beverages 1997 campaign: June promotions.", 1⟩] =
      { date_range := some ⟨"1997-06-01", "1997-06-30"⟩,
        category := some "Beverages", kpi := some "revenue" } := by decide

example :
    planAgent "Total revenue from Beverages in June 1997" [] =
      { date_range := none, category := some "Beverages", kpi := some "revenue" } := by decide

example :
    extract_first_date_range "from 1997-03-01 to 1997-03-31 inclusive" =
      some ("1997-03-01", "1997-03-31") := by decide

/-! ### Date shifting (`HybridAgent._shift_date`, `_get_sql_date_range`) -/

/-- Split a character list on a separator character. -/
def splitChar (sep : Char) : List Char → List Char → List (List Char)
  | [], acc => [acc.reverse]
  | c :: cs, acc =>
    if c == sep then acc.reverse :: splitChar sep cs []
    else splitChar sep cs (c :: acc)

/-- Value of a non-empty all-digit character list. -/
def digitsVal (l : List Char) : Option Nat :=
  if l.isEmpty then none
  else if l.all Char.isDigit then
    some (l.foldl (fun acc c => 10 * acc + (c.toNat - 48)) 0)
  else none

/-- Gregorian leap-year test, as `datetime` uses. -/
def leapYear (y : Nat) : Bool :=
  y % 4 == 0 && (y % 100 != 0 || y % 400 == 0)

/-- Days in a month of a year, as `datetime` validates. -/
def daysInMonth (y m : Nat) : Nat :=
  if m == 2 then (if leapYear y then 29 else 28)
  else if m == 4 || m == 6 || m == 9 || m == 11 then 30
  else 31

/-- `datetime.strptime(date_str, "%Y-%m-%d")`: four-digit year, one- or
two-digit month and day, whole string consumed, calendar-valid. Returns
`none` where Python raises `ValueError`. -/
def parseDate (s : String) : Option (Nat × Nat × Nat) :=
  match splitChar '-' s.data [] with
  | [ys, ms, ds] =>
    match digitsVal ys, digitsVal ms, digitsVal ds with
    | some y, some m, some d =>
      if ys.length == 4 && ms.length ≤ 2 && ds.length ≤ 2 &&
          1 ≤ y && 1 ≤ m && m ≤ 12 && 1 ≤ d && d ≤ daysInMonth y m then
        some (y, m, d)
      else none
    | _, _, _ => none
  | _ => none

/-- Left-pad a numeral to two digits (`strftime` `%m`/`%d`). -/
def pad2 (n : Nat) : String :=
  if n < 10 then "0" ++ Nat.repr n else Nat.repr n

/-- Left-pad a numeral to four digits (`strftime` `%Y`). -/
def pad4 (n : Nat) : String :=
  if n < 10 then "000" ++ Nat.repr n
  else if n < 100 then "00" ++ Nat.repr n
  else if n < 1000 then "0" ++ Nat.repr n
  else Nat.repr n

/-- `strftime("%Y-%m-%d")`. -/
def formatDate (y m d : Nat) : String :=
  pad4 y ++ "-" ++ pad2 m ++ "-" ++ pad2 d

/-- `HybridAgent._shift_date`: identity for a zero year offset, otherwise
strict parse, year replacement (which `datetime` validates), reformat.
`none` models the `ValueError` escaping the method. -/
def shift_date (yOff : Int) (date_str : String) : Option String :=
  if yOff == 0 then some date_str
  else
    match parseDate date_str with
    | none => none
    | some (y, m, d) =>
      let ny : Int := (y : Int) + yOff
      if 1 ≤ ny && ny ≤ 9999 && d ≤ daysInMonth ny.toNat m then
        some (formatDate ny.toNat m d)
      else none

/-- `HybridAgent._get_sql_date_range`: outer `none` models a raised
exception, inner `none` the absence of a date constraint. -/
def get_sql_date_range (yOff : Int) (c : Constraints) :
    Option (Option (String × String)) :=
  match c.date_range with
  | none => some none
  | some dr =>
    match shift_date yOff dr.start, shift_date yOff dr.«end» with
    | some s, some e => some (some (s, e))
    | _, _ => none

example : shift_date 16 "1997-06-01" = some "2013-06-01" := by decide
example : shift_date 16 "1997-13-01" = none := by decide
example : shift_date 0 "1997-13-01" = some "1997-13-01" := by decide
example : shift_date 1 "1996-02-29" = none := by decide

/-! ### SQL synthesis (`sanitize_literal`, `parse_top_n`,
`HybridAgent._build_filters`, `HybridAgent.generate_sql`) -/

/-- Double every single quote (the store quoting convention). -/
def sanitizeL : List Char → List Char
  | [] => []
  | c :: cs =>
    if c == '\x27' then '\x27' :: '\x27' :: sanitizeL cs
    else c :: sanitizeL cs

/-- `sanitize_literal`. -/
def sanitize_literal (s : String) : String :=
  ⟨sanitizeL s.data⟩

/-- Try `top\s+(\d+)` at the current position. -/
def topNumAt (l : List Char) : Option Nat :=
  match l with
  | 't' :: 'o' :: 'p' :: rest =>
    if (rest.takeWhile spaceChar).isEmpty then none
    else digitsVal ((rest.dropWhile spaceChar).takeWhile Char.isDigit)
  | _ => none

/-- Leftmost search for `top\s+(\d+)`. -/
def scanTopN : List Char → Option Nat
  | [] => none
  | c :: cs =>
    match topNumAt (c :: cs) with
    | some n => some n
    | none => scanTopN cs

/-- `parse_top_n`. -/
def parse_top_n (question : String) : Option Nat :=
  scanTopN (lowerStr question).data

/-- `HybridAgent._build_filters`: `none` models a raised exception; the pair
is `(date_clause, where_clause)`. -/
def build_filters (yOff : Int) (c : Constraints) : Option (String × String) :=
  match get_sql_date_range yOff c with
  | none => none
  | some none => some ("", "")
  | some (some (s, e)) =>
    let date_clause :=
      "DATE(o.OrderDate) BETWEEN \x27" ++ s ++ "\x27 AND \x27" ++ e ++ "\x27"
    some (date_clause, "WHERE " ++ date_clause)

/-- Newline plus the sixteen-space indentation of the template bodies. -/
def nl16 : String := "\n                "

/-- Newline plus the twenty-three-space continuation indentation. -/
def nl23 : String := "\n                       "

/-- Join clause fragments with SQL `AND`. -/
def joinAnd : List String → String
  | [] => ""
  | [s] => s
  | s :: rest => s ++ " AND " ++ joinAnd rest

/-- Template for "top N products by revenue". -/
def template_top_products (limit_n : Nat) : String :=
  "SELECT p.ProductName AS product," ++ nl23 ++
    "SUM(od.UnitPrice * od.Quantity * (1 - od.Discount)) AS revenue" ++ nl16 ++
    "FROM \"Order Details\" od" ++ nl16 ++
    "JOIN Products p ON p.ProductID = od.ProductID" ++ nl16 ++
    "GROUP BY p.ProductID" ++ nl16 ++
    "ORDER BY revenue DESC" ++ nl16 ++
    "LIMIT " ++ Nat.repr limit_n ++ ";"

/-- Template for "top/highest category by quantity". -/
def template_category_quantity (where_clause : String) : String :=
  "SELECT c.CategoryName AS category," ++ nl23 ++
    "SUM(od.Quantity) AS quantity" ++ nl16 ++
    "FROM \"Order Details\" od" ++ nl16 ++
    "JOIN Orders o ON o.OrderID = od.OrderID" ++ nl16 ++
    "JOIN Products p ON p.ProductID = od.ProductID" ++ nl16 ++
    "JOIN Categories c ON c.CategoryID = p.CategoryID" ++ nl16 ++
    where_clause ++ nl16 ++
    "GROUP BY c.CategoryID" ++ nl16 ++
    "ORDER BY quantity DESC" ++ nl16 ++
    "LIMIT 1;"

/-- Template for average order value. -/
def template_aov (where_clause : String) : String :=
  "SELECT SUM(od.UnitPrice * od.Quantity * (1 - od.Discount))" ++ nl23 ++
    "/ COUNT(DISTINCT o.OrderID) AS aov" ++ nl16 ++
    "FROM \"Order Details\" od" ++ nl16 ++
    "JOIN Orders o ON o.OrderID = od.OrderID" ++ nl16 ++
    where_clause ++ ";"

/-- Template for "total revenue" with a category filter and an optional
(pre-shifted) date range. -/
def template_total_revenue (cat : String) (odr : Option (String × String)) : String :=
  let extra_filter := "c.CategoryName = \x27" ++ cat ++ "\x27"
  let where_parts :=
    match odr with
    | some (s, e) =>
      [extra_filter,
       "DATE(o.OrderDate) BETWEEN \x27" ++ s ++ "\x27 AND \x27" ++ e ++ "\x27"]
    | none => [extra_filter]
  let where_sql := "WHERE " ++ joinAnd where_parts
  "SELECT SUM(od.UnitPrice * od.Quantity * (1 - od.Discount)) AS revenue" ++ nl16 ++
    "FROM \"Order Details\" od" ++ nl16 ++
    "JOIN Orders o ON o.OrderID = od.OrderID" ++ nl16 ++
    "JOIN Products p ON p.ProductID = od.ProductID" ++ nl16 ++
    "JOIN Categories c ON c.CategoryID = p.CategoryID" ++ nl16 ++
    where_sql ++ ";"

/-- Template for gross margin by customer. -/
def template_margin (where_clause : String) : String :=
  "SELECT c.CompanyName AS customer," ++ nl23 ++
    "SUM(od.UnitPrice * 0.3 * od.Quantity * (1 - od.Discount)) AS margin" ++ nl16 ++
    "FROM \"Order Details\" od" ++ nl16 ++
    "JOIN Orders o ON o.OrderID = od.OrderID" ++ nl16 ++
    "JOIN Customers c ON c.CustomerID = o.CustomerID" ++ nl16 ++
    where_clause ++ nl16 ++
    "GROUP BY c.CustomerID" ++ nl16 ++
    "ORDER BY margin DESC" ++ nl16 ++
    "LIMIT 1;"

/-- Python truthiness of the category constraint value. -/
def categoryTruthy (c : Option String) : Bool :=
  match c with
  | some s => !(s == "")
  | none => false

/-- `HybridAgent.generate_sql`: the ordered intent-template library.
`none` models a `ValueError` raised while shifting a constraint date. -/
def generate_sql (question : String) (yOff : Int) (constraints : Constraints) :
    Option String :=
  let q := trimStr (lowerStr question)
  let top_n := parse_top_n question
  match build_filters yOff constraints with
  | none => none
  | some (_, where_clause) =>
    let category := constraints.category
    if strHas q "return window" || strHas q "return policy" then some ""
    else if strHas q "top 3 products" ||
        (strHas q "top" && strHas q "products" && strHas q "revenue") then
      let limit_n := match top_n with | some n => if n == 0 then 3 else n | none => 3
      some (template_top_products limit_n)
    else if (strHas q "highest" || strHas q "top") && strHas q "category" &&
        strHas q "quantity" then
      some (template_category_quantity where_clause)
    else if strHas q "aov" || strHas q "average order value" then
      some (template_aov where_clause)
    else if strHas q "total revenue" && categoryTruthy category then
      match get_sql_date_range yOff constraints with
      | none => none
      | some odr => some (template_total_revenue (sanitize_literal (category.getD "")) odr)
    else if strHas q "gross margin" || (strHas q "margin" && strHas q "customer") then
      some (template_margin where_clause)
    else some ""

example :
    generate_sql "What is the return window for unopened Beverages per policy?" 0
      { category := some "Beverages" } = some "" := by decide

example :
    (generate_sql "Total revenue from Beverages in June 1997" 0
        { date_range := some ⟨"1997-06-01", "1997-06-30"⟩,
          category := some "Beverages", kpi := some "revenue" }).isSome = true := by decide

example :
    generate_sql "Total revenue from Beverages in June 1997" 5
      { date_range := some ⟨"1997-13-01", "1997-13-31"⟩,
        category := some "Beverages", kpi := some "revenue" } = none := by decide

/-! ### Table extraction (`extract_tables_from_sql`) and citations -/

/-- Code-point lexicographic comparison of character lists, the order
Python `sorted` uses on strings. -/
def ltL : List Char → List Char → Bool
  | _, [] => false
  | [], _ :: _ => true
  | a :: as, b :: bs =>
    if a.toNat = b.toNat then ltL as bs else decide (a.toNat < b.toNat)

/-- The corresponding non-strict order on strings. -/
def strLe (a b : String) : Prop :=
  ltL b.data a.data = false

instance : DecidableRel strLe := fun a b => by
  unfold strLe
  infer_instance

/-- Case-insensitive keyword match at the head of the list (keyword given in
lower case); returns the remainder. -/
def matchKw : List Char → List Char → Option (List Char)
  | [], rest => some rest
  | _ :: _, [] => none
  | k :: ks, c :: cs => if lowerChar c == k then matchKw ks cs else none

/-- After a table-introducing keyword: `\s+"?([\w\s]+)"?` — whitespace, an
optional quote, a greedy word-and-whitespace run (the capture), an optional
closing quote. Returns the capture, the remainder, and whether the last
consumed character is a word character (for the next boundary check). -/
def tableAfterKw (rest : List Char) : Option (String × List Char × Bool) :=
  if (rest.takeWhile spaceChar).isEmpty then none
  else
    let r1 := rest.dropWhile spaceChar
    let r2 := match r1 with | '"' :: t => t | _ => r1
    let run := r2.takeWhile (fun c => wordChar c || spaceChar c)
    if run.isEmpty then none
    else
      let r3 := r2.dropWhile (fun c => wordChar c || spaceChar c)
      match r3 with
      | '"' :: t => some (⟨run⟩, t, false)
      | _ => some (⟨run⟩, r3, wordChar (run.getLastD ' '))

/-- Scan for `\bFROM\s+"?([\w\s]+)"?|\bJOIN\s+"?([\w\s]+)"?` occurrences,
resuming after each match as `findall` does. The fuel starts at the list
length; every step consumes at least one character, so it never runs out. -/
def scanTablesAux : Nat → Bool → List Char → List String
  | 0, _, _ => []
  | _ + 1, _, [] => []
  | fuel + 1, prevWord, c :: cs =>
    let l := c :: cs
    let tryHere : Option (String × List Char × Bool) :=
      if prevWord then none
      else
        match matchKw ['f', 'r', 'o', 'm'] l with
        | some rest => tableAfterKw rest
        | none =>
          match matchKw ['j', 'o', 'i', 'n'] l with
          | some rest => tableAfterKw rest
          | none => none
    match tryHere with
    | some (cap, rest, lastWord) => cap :: scanTablesAux fuel lastWord rest
    | none => scanTablesAux fuel (wordChar c) cs

/-- All regex captures of the table pattern, in occurrence order. -/
def scanTables (sql : String) : List String :=
  scanTablesAux sql.data.length false sql.data

/-- Captures after Python `strip` / quote-strip and the truthiness filter
(the capture cannot contain a quote, so only whitespace stripping acts). -/
def table_captures (sql : String) : List String :=
  ((scanTables sql).map trimStr).filter (fun s => !(s == ""))

/-- `extract_tables_from_sql`: the distinct captures, sorted
(`sorted(set(...))`). -/
def extract_tables_from_sql (sql : String) : List String :=
  if sql == "" then []
  else List.insertionSort strLe (table_captures sql).dedup

/-- The chunk-id part of `HybridAgent._build_citations`: truthy ids in list
order, duplicates kept. -/
def chunkCitations : List Chunk → List String
  | [] => []
  | c :: cs =>
    if c.chunk_id == "" then chunkCitations cs
    else c.chunk_id :: chunkCitations cs

/-- `HybridAgent._build_citations`. -/
def build_citations (sql : String) (chunks : List Chunk) : List String :=
  extract_tables_from_sql sql ++ chunkCitations chunks

set_option maxRecDepth 4000 in
example :
    extract_tables_from_sql
        (template_total_revenue "Beverages" (some ("1997-06-01", "1997-06-30"))) =
      ["Categories c ON c", "Order Details", "Orders o ON o", "Products p ON p"] := by decide

example :
    extract_tables_from_sql "SELECT * FROM \"Orders\" o JOIN \"Orders\" o2 ON o2.A = o.A;" =
      ["Orders"] := by decide

/-! ### Textual repair and the executor (`HybridAgent._repair_sql`,
`HybridAgent.execute_sql`) -/

/-- Python `str.replace`: non-overlapping left-to-right replacement. The
fuel starts at the list length; every step consumes at least one character. -/
def replaceLAux (pat rep : List Char) : Nat → List Char → List Char
  | 0, l => l
  | _ + 1, [] => []
  | fuel + 1, c :: cs =>
    if prefixOfL pat (c :: cs) then rep ++ replaceLAux pat rep fuel ((c :: cs).drop pat.length)
    else c :: replaceLAux pat rep fuel cs

/-- Python `str.replace` on strings (non-empty pattern). -/
def replaceAllStr (s pat rep : String) : String :=
  ⟨replaceLAux pat.data rep.data s.data.length s.data⟩

/-- Collapse every whitespace run to a single space (`re.sub(r"\s+", " ")`). -/
def collapseWsAux (prevSpace : Bool) : List Char → List Char
  | [] => []
  | c :: cs =>
    if spaceChar c then
      if prevSpace then collapseWsAux true cs
      else ' ' :: collapseWsAux true cs
    else c :: collapseWsAux false cs

/-- `HybridAgent._repair_sql`: quote the multi-word entity name if unquoted,
normalize whitespace, ensure statement termination. -/
def repair_sql (sql : String) : String :=
  let sql1 :=
    if strHas sql "\"Order Details\"" then sql
    else replaceAllStr sql "Order Details" "\"Order Details\""
  let sql2 : String := ⟨sql1.data.map (fun c => if c == '\n' then ' ' else c)⟩
  let sql3 := trimStr ⟨collapseWsAux false sql2.data⟩
  if prefixOfL [';'] sql3.data.reverse then sql3 else sql3 ++ ";"

/-- `HybridAgent.execute_sql` against an abstract store: returns the
executed query text, its result, and the number of store `execute` calls
issued (0, 1 or 2). -/
def execute_sql (store : String → SqlResult) (agentMax : Nat) (sql : String)
    (attempt : Nat) : String × SqlResult × Nat :=
  if trimStr sql == "" then
    ("", { success := true, error := none, columns := [], rows := [] }, 0)
  else
    let result := store sql
    if result.success then (sql, result, 1)
    else if agentMax ≤ attempt then (sql, result, 1)
    else
      let repaired := repair_sql sql
      if repaired == sql then (sql, result, 1)
      else (repaired, store repaired, 2)

/-! ### Validator, repair node and the execute-validate-repair loop
(`node_validator`, `node_repair`, the `validator -> repair -> executor`
cycle of `build_graph`) -/

/-- The result classification of `node_validator` (before the repair-budget
guard): empty query text, store-reported failure, or zero rows. -/
def validatorBad (sql : String) (res : SqlResult) : Bool :=
  if sql == "" then true
  else if !res.success then true
  else if res.rows.isEmpty then true
  else false

/-- The constraint-relaxation schedule of `node_repair`. -/
def popConstraints (repairs : Nat) (c : Constraints) : Constraints :=
  if repairs == 0 && c.date_range.isSome then { c with date_range := none }
  else if repairs == 1 && categoryTruthy c.category then { c with category := none }
  else c

/-- `node_repair`: relax one constraint, regenerate the query, increment the
counter. `none` models an exception escaping the regeneration. -/
def node_repair (question : String) (yOff : Int) (c : Constraints) (repairs : Nat) :
    Option (Constraints × String × Nat) :=
  let c2 := popConstraints repairs c
  (generate_sql question yOff c2).map (fun s => (c2, s, repairs + 1))

/-- Final state of the execute-validate-repair loop, with instrumentation:
executor-node invocations and store `execute` calls. -/
structure LoopOut where
  sql : String
  res : SqlResult
  constraints : Constraints
  repairs : Nat
  execNodeCalls : Nat
  storeCalls : Nat
  crashed : Bool
  deriving DecidableEq

/-- One pass of executor, validator and (conditionally) repair, looping back
to the executor. The fuel starts at `stateMax + 1`; the validator only
requests repair while `repairs < stateMax` and each repair increments the
counter, so the zero-fuel branch is unreachable from `runLoop`. -/
def runLoopAux (store : String → SqlResult) (question : String) (yOff : Int)
    (agentMax stateMax : Nat) :
    Nat → Nat → Constraints → String → Nat → Nat → LoopOut
  | 0, repairs, c, sql, en, sc =>
    ⟨sql, { success := false, error := none, columns := [], rows := [] }, c,
      repairs, en, sc, true⟩
  | fuel + 1, repairs, c, sql, en, sc =>
    let out := execute_sql store agentMax sql repairs
    let sql2 := out.1
    let res := out.2.1
    let en2 := en + 1
    let sc2 := sc + out.2.2
    if validatorBad sql2 res && decide (repairs < stateMax) then
      match node_repair question yOff c repairs with
      | none => ⟨sql2, res, popConstraints repairs c, repairs, en2, sc2, true⟩
      | some (c2, sql3, r2) =>
        runLoopAux store question yOff agentMax stateMax fuel r2 c2 sql3 en2 sc2
    else ⟨sql2, res, c, repairs, en2, sc2, false⟩

/-- The execute-validate-repair loop entered from the first executor call,
with a fresh repair counter. -/
def runLoop (store : String → SqlResult) (question : String) (yOff : Int)
    (agentMax stateMax : Nat) (c : Constraints) (sql : String) : LoopOut :=
  runLoopAux store question yOff agentMax stateMax (stateMax + 1) 0 c sql 0 0

/-! ### Answer synthesis (`safe_round_float`, `parse_format_hint`,
`extract_policy_number`, `HybridAgent.synthesize`) -/

/-- Decimal rounding to two places, as `round(x, 2)` on the pipeline numbers
(ties, which arise for no value in this development, follow nearest-integer
rounding). -/
def roundQ2 (q : ℚ) : ℚ :=
  (Rat.floor (q * 100 + 1 / 2) : ℤ) / 100

/-- A Python float result: finite value or `nan`. -/
inductive RFloat
  | fin (q : ℚ)
  | nan
  deriving DecidableEq

/-- `safe_round_float`: `round(float(val), 2)` with every exception mapped
to `nan`. `float` raises on NULL; the texts this pipeline handles are
non-numeric, so `float` on them raises as well. -/
def safe_round_float : SVal → RFloat
  | .vInt n => .fin (roundQ2 n)
  | .vFloat q => .fin (roundQ2 q)
  | .vNull => .nan
  | .vStr _ => .nan

/-- Python `int(...)` on a result cell: identity on integers, truncation
toward zero on floats, an exception (`none`) on NULL and on the pipeline's
non-numeric texts. -/
def castInt : SVal → Option Int
  | .vInt n => some n
  | .vFloat q => some (if 0 ≤ q then ⌊q⌋ else -⌊-q⌋)
  | .vNull => none
  | .vStr _ => none

/-- Top-level type of a parsed format hint. -/
inductive FType
  | tInt
  | tFloat
  | tList
  | tObj
  | tStr
  deriving DecidableEq

/-- `parse_format_hint`, at the top level that drives the synthesis
dispatch (the recursive inner-hint parse feeds no branch decision). -/
def parse_format_hint (format_hint : String) : FType :=
  let hint := trimStr format_hint
  if hint == "int" then .tInt
  else if prefixOfL "float".data hint.data then .tFloat
  else if prefixOfL "list".data hint.data then .tList
  else if prefixOfL ['\x7b'] hint.data && prefixOfL ['\x7d'] hint.data.reverse then .tObj
  else .tStr

/-- The lower-cased hint keywords present in the question
(`extract_policy_number` preamble). -/
def policy_hints (question : String) : List String :=
  (KNOWN_CATEGORIES ++ ["beverages", "condiments", "policy", "return"]).filterMap
    (fun cat =>
      if strHas (lowerStr question) (lowerStr cat) then some (lowerStr cat) else none)

/-- Python `str.splitlines` on newline-separated ASCII text. -/
def splitLines (content : String) : List (List Char) :=
  let parts := splitChar '\n' content.data []
  match parts.getLast? with
  | some [] => parts.dropLast
  | _ => parts

/-- Try `(\d+)\s*days` (ignoring case) at the current position. -/
def daysNumAt (l : List Char) : Option Nat :=
  let ds := l.takeWhile Char.isDigit
  if ds.isEmpty then none
  else
    let rest := (l.dropWhile Char.isDigit).dropWhile spaceChar
    if prefixOfL ['d', 'a', 'y', 's'] (rest.map lowerChar) then digitsVal ds else none

/-- Leftmost search for `(\d+)\s*days`. -/
def scanDays : List Char → Option Nat
  | [] => none
  | c :: cs =>
    match daysNumAt (c :: cs) with
    | some n => some n
    | none => scanDays cs

/-- First candidate text with a days pattern. -/
def firstDaysIn : List (List Char) → Option Nat
  | [] => none
  | t :: ts =>
    match scanDays t with
    | some n => some n
    | none => firstDaysIn ts

/-- Per-chunk body of `extract_policy_number`: hint-matching lines when any
exist, else the whole content. -/
def chunkPolicyNumber (hints : List String) (content : String) : Option Nat :=
  let candidates :=
    if hints.isEmpty then [content.data]
    else
      let matched :=
        (splitLines content).filter
          (fun ln => hints.any (fun h => subL h.data (ln.map lowerChar)))
      if matched.isEmpty then [content.data] else matched
  firstDaysIn candidates

/-- `extract_policy_number` over the chunk list. -/
def extract_policy_number (question : String) : List Chunk → Option Nat
  | [] => none
  | c :: cs =>
    match chunkPolicyNumber (policy_hints question) c.content with
    | some n => some n
    | none => extract_policy_number question cs

/-- A shaped final answer (the Python value in `final_answer`). -/
inductive Answer
  | aInt (n : Int)
  | aFloat (x : RFloat)
  | aList (rows : List Row)
  | aObj (row : Row)
  | aRow (row : Row)
  | aStr (s : String)
  deriving DecidableEq

/-- The per-value normalization of the list and object branches. -/
def format_value : SVal → SVal
  | .vFloat q => .vFloat (roundQ2 q)
  | .vInt n => .vInt n
  | v => v

/-- The per-row normalization of the list and object branches: keys
lower-cased, values normalized. (Result rows have distinct column names, as
the store produces them.) -/
def format_row : Row → Row
  | [] => []
  | (k, v) :: rest => (lowerStr k, format_value v) :: format_row rest

/-- The final output record of `HybridAgent.synthesize`. -/
structure SynthOut where
  id : String
  final_answer : Answer
  sql : String
  confidence : ℚ
  explanation : String
  citations : List String
  deriving DecidableEq

/-- `HybridAgent.synthesize`: format-hint-directed answer shaping. `none`
models an exception escaping the method (the `int(...)` cast or the
first-cell access). The `route` argument is accepted and unused, as in the
source. -/
def synthesize (item_id question format_hint route sql : String)
    (sql_res : SqlResult) (chunks : List Chunk) (constraints : Constraints) :
    Option SynthOut :=
  let parsed := parse_format_hint format_hint
  let rows := sql_res.rows
  let success := sql_res.success
  let mk : Answer → ℚ → String → SynthOut := fun fa conf expl =>
    { id := item_id, final_answer := fa, sql := sql,
      confidence := roundQ2 conf, explanation := expl,
      citations := build_citations sql chunks }
  match parsed with
  | .tInt =>
    match extract_policy_number question chunks with
    | some v => some (mk (.aInt v) (85 / 100) "Matched return window from policy docs.")
    | none =>
      match rows with
      | [] => some (mk (.aInt 0) (4 / 10) "Matched return window from policy docs.")
      | [] :: _ => none
      | ((_, v) :: _) :: _ =>
        match castInt v with
        | none => none
        | some n => some (mk (.aInt n) (85 / 100) "Matched return window from policy docs.")
  | .tFloat =>
    match rows with
    | [] =>
      some (mk (.aFloat (.fin 0)) (1 / 2) "Computed metric via SQL over Orders/Order Details.")
    | [] :: _ => none
    | ((_, v) :: _) :: _ =>
      some (mk (.aFloat (safe_round_float v)) (if success then 9 / 10 else 1 / 2)
        "Computed metric via SQL over Orders/Order Details.")
  | .tList =>
    let out := rows.map format_row
    some (mk (.aList out) (if out.isEmpty then 1 / 2 else 9 / 10)
      "Ranked entities using revenue aggregation.")
  | .tObj =>
    match rows with
    | [] => some (mk (.aObj []) (1 / 2) "Derived structured answer from SQL results.")
    | row :: _ =>
      some (mk (.aObj (format_row row)) (9 / 10) "Derived structured answer from SQL results.")
  | .tStr =>
    match rows with
    | [] => some (mk (.aStr "") (1 / 2) "Returned raw SQL output.")
    | row :: _ => some (mk (.aRow row) (1 / 2) "Returned raw SQL output.")

/-! ### Retriever (`Retriever.search` post-processing) -/

/-- One indexed chunk of the retrieval corpus (`chunk_meta` entry plus its
text). The TF-IDF vectorizer is the external boundary; the similarity row
`sims` it produces for a query is taken as input. -/
structure IndexedChunk where
  chunk_id : String
  source : String
  content : String
  deriving DecidableEq

/-- `Retriever.search` after the similarity computation: all-zero rows give
an empty result; otherwise indices are ranked by descending score and the
first `top_k` are materialized. -/
def search (sims : List ℚ) (corpus : List IndexedChunk) (top_k : Nat) : List Chunk :=
  if sims.all (fun s => s == 0) then []
  else
    let ranked := List.insertionSort (fun a b : Nat × ℚ => b.2 ≤ a.2) sims.enum
    (ranked.map (·.1)).take top_k |>.filterMap
      (fun i =>
        (corpus.get? i).bind (fun ic =>
          (sims.get? i).map (fun s => ⟨ic.chunk_id, ic.source, ic.content, s⟩)))

/-! ## Theorems -/

/-- **C1.** For every question whose keyword-heuristic fallback detects a
structured need (route `sql` or `hybrid`), the resolved route returned by
`HybridAgent.route` is never `rag`, whatever the language-model predictor
does: raise, return an invalid or empty label, or return `rag`. -/
theorem c1_route_never_rag (question : String) (p : PredOutcome)
    (h : fallback_route question = "sql" ∨ fallback_route question = "hybrid") :
    routeAgent question p ≠ "rag" := by
  have hres : ∀ F r : String, F = "sql" ∨ F = "hybrid" → resolveRoute F r ≠ "rag" := by
    intro F r hF
    have hFne : F ≠ "rag" := by rcases hF with hc | hc <;> simp [hc]
    simp only [resolveRoute]
    split
    · exact hFne
    · split
      · exact hFne
      · rename_i h1 h2
        intro he
        rw [he] at h2
        rcases hF with hc | hc <;> rw [hc] at h2 <;> exact h2 (by decide)
  cases p with
  | raises =>
    have hFne : fallback_route question ≠ "rag" := by rcases h with hc | hc <;> simp [hc]
    simpa [routeAgent] using hFne
  | returns s =>
    simpa [routeAgent] using hres (fallback_route question) _ h

/-- Witness for C1 at a concrete aggregation question and a predictor that
returns `rag`. -/
theorem c1_route_never_rag_witness :
    (fallback_route "Total revenue from Beverages in June 1997" = "sql" ∨
      fallback_route "Total revenue from Beverages in June 1997" = "hybrid") ∧
    routeAgent "Total revenue from Beverages in June 1997" (.returns "rag") ≠ "rag" :=
  ⟨Or.inr (by decide),
    c1_route_never_rag "Total revenue from Beverages in June 1997" (.returns "rag")
      (Or.inr (by decide))⟩

/-- Each executor-node invocation issues at most two store `execute` calls. -/
theorem execute_sql_store_calls_le (store : String → SqlResult) (agentMax : Nat)
    (sql : String) (attempt : Nat) :
    (execute_sql store agentMax sql attempt).2.2 ≤ 2 := by
  simp only [execute_sql]
  split
  · simp
  · split
    · simp
    · split
      · simp
      · split <;> simp

/-- Bound invariant of the loop body: with `r ≤ stateMax` on entry,
executor-node invocations, store calls and the repair counter stay within
the fuel-derived budgets. -/
theorem runLoopAux_bounds (store : String → SqlResult) (question : String) (yOff : Int)
    (agentMax stateMax : Nat) :
    ∀ (fuel r : Nat) (c : Constraints) (sql : String) (en sc : Nat), r ≤ stateMax →
      (runLoopAux store question yOff agentMax stateMax fuel r c sql en sc).execNodeCalls ≤
          en + fuel ∧
        (runLoopAux store question yOff agentMax stateMax fuel r c sql en sc).storeCalls ≤
          sc + 2 * fuel ∧
        (runLoopAux store question yOff agentMax stateMax fuel r c sql en sc).repairs ≤
          stateMax := by
  intro fuel
  induction fuel with
  | zero =>
    intro r c sql en sc hr
    simp only [runLoopAux]
    exact ⟨Nat.le_refl _, by omega, hr⟩
  | succ fuel ih =>
    intro r c sql en sc hr
    have hn := execute_sql_store_calls_le store agentMax sql r
    simp only [runLoopAux]
    split
    · rename_i hcond
      have hrlt : r < stateMax := by
        have h2 := (Bool.and_eq_true _ _).mp hcond
        exact of_decide_eq_true h2.2
      split
      · refine ⟨?_, ?_, ?_⟩ <;> dsimp only <;> omega
      · rename_i c2 sql3 r2 heq
        simp only [node_repair, Option.map_eq_some'] at heq
        obtain ⟨s, hs, hfs⟩ := heq
        injection hfs with hA hBC
        injection hBC with hB hC
        subst hA
        subst hB
        subst hC
        have hrec := ih (r + 1) (popConstraints r c) s (en + 1)
          (sc + (execute_sql store agentMax sql r).2.2) (by omega)
        exact ⟨le_trans hrec.1 (by omega), le_trans hrec.2.1 (by omega), hrec.2.2⟩
    · refine ⟨?_, ?_, ?_⟩ <;> dsimp only <;> omega

/-- **C2 (amended).** The execute-validate-repair loop performs at most
`max_repairs + 1` executor-node invocations, hence at most
`2 * (max_repairs + 1)` store `execute` calls (each invocation may execute
the query and once retry its textual repair), and the final repair counter
never exceeds `max_repairs`. -/
theorem c2_loop_bounds (store : String → SqlResult) (question : String) (yOff : Int)
    (agentMax stateMax : Nat) (c : Constraints) (sql : String) :
    (runLoop store question yOff agentMax stateMax c sql).execNodeCalls ≤ stateMax + 1 ∧
      (runLoop store question yOff agentMax stateMax c sql).storeCalls ≤
        2 * (stateMax + 1) ∧
      (runLoop store question yOff agentMax stateMax c sql).repairs ≤ stateMax := by
  have := runLoopAux_bounds store question yOff agentMax stateMax (stateMax + 1) 0 c sql 0 0
    (Nat.zero_le _)
  exact ⟨by simpa [runLoop] using this.1, by simpa [runLoop] using this.2.1,
    by simpa [runLoop] using this.2.2⟩

/-- A store that reports failure for every query. -/
def c2FailStore : String → SqlResult := fun _ =>
  { success := false, error := some "syntax error", columns := [], rows := [] }

/-- The first synthesized query of the C2 counterexample run. -/
def c2InitialSql : String :=
  (generate_sql "top 3 products by revenue" 0 (planAgent "top 3 products by revenue" [])).getD ""

/-- **C2 (counterexample).** Against an always-failing store, the run for
"top 3 products by revenue" with repair budget 2 issues five store
`execute` calls: each of the three executor invocations that may still
repair executes both the template text and its textual repair. The claim
as stated bounds store `execute` calls by `max_repairs + 1 = 3`. -/
theorem c2_store_calls_counterexample :
    (runLoop c2FailStore "top 3 products by revenue" 0 2 2
        (planAgent "top 3 products by revenue" []) c2InitialSql).storeCalls = 5 ∧
      ¬ ((runLoop c2FailStore "top 3 products by revenue" 0 2 2
          (planAgent "top 3 products by revenue" []) c2InitialSql).storeCalls ≤ 2 + 1) := by
  constructor
  · decide
  · decide

/-- With no date-range constraint, query regeneration cannot raise: no date
is shifted. -/
theorem generate_sql_isSome_of_dr_none (question : String) (yOff : Int)
    (c : Constraints) (h : c.date_range = none) :
    (generate_sql question yOff c).isSome := by
  simp only [generate_sql, build_filters, get_sql_date_range, h]
  repeat' split
  all_goals simp

/-- After the attempt-0 relaxation the date-range constraint is gone. -/
theorem popConstraints_zero_dr (c : Constraints) :
    (popConstraints 0 c).date_range = none := by
  cases hdr : c.date_range <;> simp [popConstraints, hdr]

/-- **C4.** On entry to the repair node with counter `r`: attempt 0 removes
the date-range key if present (a no-op when absent), attempt 1 removes the
category key if present (a no-op when absent), later counters change
nothing, no other key is touched, the query is regenerated from the updated
constraints, and the counter is incremented by exactly one; at attempt 0
the node always produces its update. (Constraint sets carry no empty-string
category, as the planner guarantees.) -/
theorem c4_repair_steps (question : String) (yOff : Int) (c : Constraints) (r : Nat)
    (hcat : c.category ≠ some "") :
    (r = 0 → (node_repair question yOff c 0).isSome) ∧
    ∀ c2 sql2 r2, node_repair question yOff c r = some (c2, sql2, r2) →
      (r = 0 → c2 = { c with date_range := none }) ∧
      (r = 1 → c2 = { c with category := none }) ∧
      (2 ≤ r → c2 = c) ∧
      c2.kpi = c.kpi ∧
      (r = 0 → c2.category = c.category) ∧
      (r = 1 → c2.date_range = c.date_range) ∧
      generate_sql question yOff c2 = some sql2 ∧
      r2 = r + 1 := by
  constructor
  · intro _
    have h := generate_sql_isSome_of_dr_none question yOff (popConstraints 0 c)
      (popConstraints_zero_dr c)
    obtain ⟨s, hs⟩ := Option.isSome_iff_exists.mp h
    simp [node_repair, hs]
  · intro c2 sql2 r2 heq
    simp only [node_repair, Option.map_eq_some'] at heq
    obtain ⟨s, hs, hfs⟩ := heq
    injection hfs with hA hBC
    injection hBC with hB hC
    subst hA
    subst hB
    subst hC
    refine ⟨?_, ?_, ?_, ?_, ?_, ?_, hs, rfl⟩
    · rintro rfl
      cases hdr : c.date_range <;> cases c <;> simp_all [popConstraints]
    · rintro rfl
      cases hco : c.category with
      | none => cases c <;> simp_all [popConstraints]
      | some s0 =>
        have hs0 : s0 ≠ "" := by
          intro h0
          exact hcat (by rw [hco, h0])
        cases c <;> simp_all [popConstraints, categoryTruthy]
    · intro hge
      have h0 : r ≠ 0 := by omega
      have h1 : r ≠ 1 := by omega
      simp [popConstraints, h0, h1]
    · simp only [popConstraints]
      split
      · rfl
      · split <;> rfl
    · rintro rfl
      simp only [popConstraints]
      split
      · rfl
      · split
        · rename_i hb
          simp at hb
        · rfl
    · rintro rfl
      simp only [popConstraints]
      split
      · rename_i hb
        simp at hb
      · split <;> rfl

/-- Witness for C4 at attempt 0 on a concrete constraint set with both
droppable keys present. -/
theorem c4_repair_steps_witness :
    ((⟨some ⟨"1997-06-01", "1997-06-30"⟩, some "Beverages", some "revenue"⟩ :
        Constraints).category ≠ some "") ∧
    (node_repair "Total revenue from Beverages in June 1997" 0
        ⟨some ⟨"1997-06-01", "1997-06-30"⟩, some "Beverages", some "revenue"⟩ 0).isSome := by
  refine ⟨by decide, ?_⟩
  exact (c4_repair_steps "Total revenue from Beverages in June 1997" 0
    ⟨some ⟨"1997-06-01", "1997-06-30"⟩, some "Beverages", some "revenue"⟩ 0
    (by decide)).1 rfl

/-- **C9.** When the store fails the synthesized query, the textual repair
changes the text, and the repaired query fails too (with repair budget left,
as on every looping execute), `execute_sql` returns the repaired text
together with the repaired attempt's failing result — the repaired text is
what reaches the output `sql` field and the trace. -/
theorem c9_repaired_text_returned (store : String → SqlResult) (agentMax : Nat)
    (sql : String) (attempt : Nat)
    (hne : ¬ trimStr sql = "")
    (hfail : (store sql).success = false)
    (hlt : attempt < agentMax)
    (hdiff : repair_sql sql ≠ sql)
    (hfail2 : (store (repair_sql sql)).success = false) :
    execute_sql store agentMax sql attempt =
      (repair_sql sql, store (repair_sql sql), 2) := by
  have h1 : (trimStr sql == "") = false := by simpa using hne
  have h2 : ¬ agentMax ≤ attempt := by omega
  have h3 : (repair_sql sql == sql) = false := by simpa using hdiff
  simp [execute_sql, h1, hfail, h2, h3]

/-- A store that fails every query with a syntax-style error. -/
def c9Store : String → SqlResult := fun _ =>
  { success := false, error := some "near error", columns := [], rows := [] }

/-- Witness for C9 on a concrete multi-line query against an always-failing
store. -/
theorem c9_repaired_text_returned_witness :
    (¬ trimStr "SELECT 1\nFROM Orders" = "") ∧
    (c9Store "SELECT 1\nFROM Orders").success = false ∧
    0 < 2 ∧
    repair_sql "SELECT 1\nFROM Orders" ≠ "SELECT 1\nFROM Orders" ∧
    (c9Store (repair_sql "SELECT 1\nFROM Orders")).success = false ∧
    execute_sql c9Store 2 "SELECT 1\nFROM Orders" 0 =
      (repair_sql "SELECT 1\nFROM Orders",
        c9Store (repair_sql "SELECT 1\nFROM Orders"), 2) :=
  ⟨by decide, by decide, by decide, by decide, by decide,
    c9_repaired_text_returned c9Store 2 "SELECT 1\nFROM Orders" 0
      (by decide) (by decide) (by decide) (by decide) (by decide)⟩

/-- **C3 (counterexample).** Exceptions do escape two nodes. A planner-
extractable date range (the `\d{2}` month pattern admits month 13) makes
query synthesis raise under a nonzero year offset, and an int-format
synthesis over a NULL first cell makes the `int(...)` cast raise; both are
modelled by `none`. -/
theorem c3_counterexample :
    (planAgent "Total revenue from Beverages 1997-13-01 to 1997-13-31" []).date_range =
        some ⟨"1997-13-01", "1997-13-31"⟩ ∧
    generate_sql "Total revenue from Beverages 1997-13-01 to 1997-13-31" 16
        (planAgent "Total revenue from Beverages 1997-13-01 to 1997-13-31" []) = none ∧
    synthesize "q1" "How many units for Beverages?" "int" "hybrid" "SELECT 1;"
        { success := true, rows := [[("revenue", SVal.vNull)]] } [] {} = none := by
  refine ⟨by decide, by decide, by decide⟩

/-- Are the constraint dates absent, or both strictly parseable and
year-shiftable? Exactly the condition under which `_build_filters` cannot
raise. -/
def shiftableConstraints (yOff : Int) (c : Constraints) : Bool :=
  match c.date_range with
  | none => true
  | some dr => (shift_date yOff dr.start).isSome && (shift_date yOff dr.«end»).isSome

/-- **C3 (amended).** No exception escapes a node, with two provisos: query
synthesis returns whenever the constraint date range is absent or consists
of valid shiftable calendar dates, and answer synthesis returns on every
non-int format (given result rows as the store shapes them, first row
non-empty) and on int formats whenever a policy number was found, there are
no rows, or the first cell casts to an integer. -/
theorem c3_no_raise_amended :
    (∀ (question : String) (yOff : Int) (c : Constraints),
        shiftableConstraints yOff c = true → (generate_sql question yOff c).isSome) ∧
    (∀ (item_id question format_hint route sql : String) (res : SqlResult)
        (chunks : List Chunk) (cons : Constraints),
        parse_format_hint format_hint ≠ FType.tInt →
        parse_format_hint format_hint ≠ FType.tFloat →
        (synthesize item_id question format_hint route sql res chunks cons).isSome) ∧
    (∀ (item_id question format_hint route sql : String) (res : SqlResult)
        (chunks : List Chunk) (cons : Constraints),
        parse_format_hint format_hint = FType.tFloat →
        (res.rows = [] ∨ ∃ kv r rs, res.rows = (kv :: r) :: rs) →
        (synthesize item_id question format_hint route sql res chunks cons).isSome) ∧
    (∀ (item_id question format_hint route sql : String) (res : SqlResult)
        (chunks : List Chunk) (cons : Constraints),
        parse_format_hint format_hint = FType.tInt →
        ((extract_policy_number question chunks).isSome ∨ res.rows = [] ∨
          ∃ k v r rs, res.rows = ((k, v) :: r) :: rs ∧ (castInt v).isSome) →
        (synthesize item_id question format_hint route sql res chunks cons).isSome) := by
  refine ⟨?_, ?_, ?_, ?_⟩
  · intro question yOff c hs
    cases hdr : c.date_range with
    | none => exact generate_sql_isSome_of_dr_none question yOff c hdr
    | some dr =>
      rw [shiftableConstraints, hdr] at hs
      simp only [Bool.and_eq_true] at hs
      obtain ⟨s1, hs1⟩ := Option.isSome_iff_exists.mp hs.1
      obtain ⟨s2, hs2⟩ := Option.isSome_iff_exists.mp hs.2
      simp only [generate_sql, build_filters, get_sql_date_range, hdr, hs1, hs2]
      repeat' split
      all_goals simp
  · intro item_id question format_hint route sql res chunks cons hne hnf
    cases hp : parse_format_hint format_hint
    · exact absurd hp hne
    · exact absurd hp hnf
    · simp [synthesize, hp]
    · cases h : res.rows <;> simp [synthesize, hp, h]
    · cases h : res.rows <;> simp [synthesize, hp, h]
  · intro item_id question format_hint route sql res chunks cons hp hrows
    rcases hrows with h | ⟨kv, r, rs, h⟩ <;> simp [synthesize, hp, h]
  · intro item_id question format_hint route sql res chunks cons hp hcase
    cases hpol : extract_policy_number question chunks with
    | some v => simp [synthesize, hp, hpol]
    | none =>
      rcases hcase with h | h | ⟨k, v, r, rs, h, hcast⟩
      · rw [hpol] at h
        exact absurd h (by simp)
      · simp [synthesize, hp, hpol, h]
      · obtain ⟨n, hn⟩ := Option.isSome_iff_exists.mp hcast
        simp [synthesize, hp, hpol, h, hn]

/-- Witness for the amended C3 at a concrete shiftable constraint set. -/
theorem c3_no_raise_amended_witness :
    shiftableConstraints 16
        ⟨some ⟨"1997-06-01", "1997-06-30"⟩, some "Beverages", some "revenue"⟩ = true ∧
    (generate_sql "Total revenue from Beverages in June 1997" 16
        ⟨some ⟨"1997-06-01", "1997-06-30"⟩, some "Beverages", some "revenue"⟩).isSome :=
  ⟨by decide,
    c3_no_raise_amended.1 "Total revenue from Beverages in June 1997" 16
      ⟨some ⟨"1997-06-01", "1997-06-30"⟩, some "Beverages", some "revenue"⟩ (by decide)⟩

/-- `Rat.floor` agrees with the floor of the archimedean order structure. -/
theorem ratFloor_eq_intFloor (q : ℚ) : Rat.floor q = ⌊q⌋ := by
  rw [Rat.floor_def', ← Rat.floor_def]

/-- Evaluate `roundQ2` from a bracketing of the scaled value. -/
theorem roundQ2_eval (q : ℚ) (m : ℤ) (h1 : (m : ℚ) ≤ q * 100 + 1 / 2)
    (h2 : q * 100 + 1 / 2 < m + 1) : roundQ2 q = (m : ℚ) / 100 := by
  rw [roundQ2, ratFloor_eq_intFloor, Int.floor_eq_iff.mpr ⟨h1, h2⟩]

/-- The low-confidence value is a fixed point of the output rounding. -/
theorem roundQ2_half : roundQ2 (1 / 2) = 1 / 2 := by
  have h : roundQ2 (1 / 2 : ℚ) = ((50 : ℤ) : ℚ) / 100 :=
    roundQ2_eval _ 50 (by norm_num) (by norm_num)
  rw [h]
  norm_num

/-- The high-confidence value is a fixed point of the output rounding. -/
theorem roundQ2_nine : roundQ2 (9 / 10) = 9 / 10 := by
  have h : roundQ2 (9 / 10 : ℚ) = ((90 : ℤ) : ℚ) / 100 :=
    roundQ2_eval _ 90 (by norm_num) (by norm_num)
  rw [h]
  norm_num

/-- **C5 (amended).** For a float format hint: with no result rows the
final answer is `0.0` at confidence `0.5`; with a first row and store
success the final answer is the first cell passed through
`safe_round_float` at confidence `0.9`, and whenever that cell is numeric
the rounded value is finite with exactly two decimal places (`NaN` when the
cell is not numeric, e.g. NULL). -/
theorem c5_float_branch (item_id question format_hint route sql : String)
    (res : SqlResult) (chunks : List Chunk) (cons : Constraints)
    (hp : parse_format_hint format_hint = FType.tFloat) :
    (res.rows = [] →
      (synthesize item_id question format_hint route sql res chunks cons).map
          (fun o => o.final_answer) = some (Answer.aFloat (RFloat.fin 0)) ∧
      (synthesize item_id question format_hint route sql res chunks cons).map
          (fun o => o.confidence) = some (1 / 2)) ∧
    (∀ (k : String) (v : SVal) (r : Row) (rs : List Row),
      res.rows = ((k, v) :: r) :: rs → res.success = true →
      (synthesize item_id question format_hint route sql res chunks cons).map
          (fun o => o.final_answer) = some (Answer.aFloat (safe_round_float v)) ∧
      (synthesize item_id question format_hint route sql res chunks cons).map
          (fun o => o.confidence) = some (9 / 10) ∧
      ∀ x : ℚ, safe_round_float v = RFloat.fin x → ∃ m : ℤ, x = (m : ℚ) / 100) := by
  constructor
  · intro h
    constructor
    · simp [synthesize, hp, h]
    · simp [synthesize, hp, h]
      simpa using roundQ2_half
  · intro k v r rs h hsucc
    refine ⟨?_, ?_, ?_⟩
    · simp [synthesize, hp, h]
    · simp [synthesize, hp, h, hsucc]
      simpa using roundQ2_nine
    · intro x hx
      cases v with
      | vNull => exact absurd hx (by simp [safe_round_float])
      | vStr s => exact absurd hx (by simp [safe_round_float])
      | vInt n =>
        have hx2 : x = roundQ2 (n : ℚ) := by
          have := hx
          simp [safe_round_float] at this
          exact this.symm
        exact ⟨Rat.floor ((n : ℚ) * 100 + 1 / 2), by rw [hx2]; rfl⟩
      | vFloat q =>
        have hx2 : x = roundQ2 q := by
          have := hx
          simp [safe_round_float] at this
          exact this.symm
        exact ⟨Rat.floor (q * 100 + 1 / 2), by rw [hx2]; rfl⟩

/-- Is a shaped answer a finite float? -/
def answerFinite : Answer → Bool
  | .aFloat (.fin _) => true
  | _ => false

/-- **C5 (counterexample).** A successful one-row result whose first cell is
NULL (as `SUM` over no matching rows yields) makes the float branch emit
`NaN` at confidence `0.9`: the final answer equals no finite two-decimal
number, against the claim that it is a finite number rounded to two
places. -/
theorem c5_nan_counterexample :
    (synthesize "q1" "Total revenue from Beverages" "float" "hybrid" "SELECT 1;"
        { success := true, rows := [[("revenue", SVal.vNull)]] } [] {}).map
        (fun o => o.final_answer) = some (Answer.aFloat RFloat.nan) ∧
    (synthesize "q1" "Total revenue from Beverages" "float" "hybrid" "SELECT 1;"
        { success := true, rows := [[("revenue", SVal.vNull)]] } [] {}).map
        (fun o => answerFinite o.final_answer) = some false := by
  constructor <;> decide

/-- The concrete float-format result of the C5 witness. -/
def c5Res : SqlResult :=
  { success := true, rows := [[("aov", SVal.vInt 7)]] }

/-- Witness for the amended C5 at a concrete numeric one-row result. -/
theorem c5_float_branch_witness :
    parse_format_hint "float" = FType.tFloat ∧
    c5Res.rows = [[("aov", SVal.vInt 7)]] ∧
    c5Res.success = true ∧
    (synthesize "q2" "What is the AOV?" "float" "hybrid" "SELECT 1;" c5Res [] {}).map
        (fun o => o.final_answer) =
      some (Answer.aFloat (safe_round_float (SVal.vInt 7))) :=
  ⟨by decide, by decide, by decide,
    ((c5_float_branch "q2" "What is the AOV?" "float" "hybrid" "SELECT 1;" c5Res [] {}
        (by decide)).2 "aov" (SVal.vInt 7) [] []
        (by decide) (by decide)).1⟩

/-- **C6.** For a list format hint: the final answer maps each result row,
in order, through the row normalization — one output element per row (the
length equals the row count), every key the lower-cased column name of a key
of the corresponding input row, floats rounded to two decimal places,
integers kept — and the confidence is `0.9` for a non-empty list, `0.5` for
an empty one. -/
theorem c6_list_branch (item_id question format_hint route sql : String)
    (res : SqlResult) (chunks : List Chunk) (cons : Constraints)
    (hp : parse_format_hint format_hint = FType.tList) :
    (synthesize item_id question format_hint route sql res chunks cons).map
        (fun o => o.final_answer) = some (Answer.aList (res.rows.map format_row)) ∧
    (res.rows.map format_row).length = res.rows.length ∧
    (∀ i : Nat, (res.rows.map format_row).get? i = (res.rows.get? i).map format_row) ∧
    (∀ (row : Row) (kv : String × SVal), kv ∈ format_row row →
      ∃ kv0 ∈ row, kv.1 = lowerStr kv0.1 ∧ kv.2 = format_value kv0.2) ∧
    (∀ q : ℚ, format_value (SVal.vFloat q) = SVal.vFloat (roundQ2 q) ∧
      ∃ m : ℤ, roundQ2 q = (m : ℚ) / 100) ∧
    (∀ n : ℤ, format_value (SVal.vInt n) = SVal.vInt n) ∧
    (synthesize item_id question format_hint route sql res chunks cons).map
        (fun o => o.confidence) = some (if res.rows = [] then 1 / 2 else 9 / 10) := by
  refine ⟨?_, List.length_map _ _, ?_, ?_, ?_, ?_, ?_⟩
  · simp [synthesize, hp]
  · intro i
    simp [List.get?_map]
  · intro row kv hkv
    induction row with
    | nil => simp [format_row] at hkv
    | cons a rest ih =>
      obtain ⟨k, v⟩ := a
      simp only [format_row, List.mem_cons] at hkv
      rcases hkv with h | h
      · exact ⟨(k, v), List.mem_cons_self _ _, by simp [h]⟩
      · obtain ⟨kv0, hmem, hk, hv⟩ := ih h
        exact ⟨kv0, List.mem_cons_of_mem _ hmem, hk, hv⟩
  · intro q
    exact ⟨rfl, ⟨Rat.floor (q * 100 + 1 / 2), rfl⟩⟩
  · intro n
    rfl
  · cases h : res.rows with
    | nil =>
      simp [synthesize, hp, h]
      simpa using roundQ2_half
    | cons a t =>
      simp [synthesize, hp, h]
      simpa using roundQ2_nine

/-- The concrete list-format result of the C6 witness. -/
def c6Res : SqlResult :=
  { success := true,
    rows := [[("Product", SVal.vStr "Chai"), ("Qty", SVal.vInt 39)],
             [("Product", SVal.vStr "Chang"), ("Qty", SVal.vInt 17)]] }

/-- Witness for C6 at a concrete two-row result. -/
theorem c6_list_branch_witness :
    parse_format_hint "list[{product:str, qty:int}]" = FType.tList ∧
    (synthesize "q3" "Top products by quantity" "list[{product:str, qty:int}]" "hybrid"
        "SELECT 1;" c6Res [] {}).map (fun o => o.final_answer) =
      some (Answer.aList (c6Res.rows.map format_row)) :=
  ⟨by decide,
    (c6_list_branch "q3" "Top products by quantity" "list[{product:str, qty:int}]" "hybrid"
        "SELECT 1;" c6Res [] {} (by decide)).1⟩

/-- **C7 (counterexample).** With an empty retrieved-chunk list the planner
extracts no date range for "Total revenue from Beverages in June 1997" (the
June dates only come from a campaign-mentioning chunk), and a predictor
that validly answers `sql` makes the resolved route `sql`; the claim
asserts the June date range and a hybrid route for any chunk list and any
predictor outcome. -/
theorem c7_counterexample :
    (planAgent "Total revenue from Beverages in June 1997" []).date_range = none ∧
    routeAgent "Total revenue from Beverages in June 1997" (PredOutcome.returns "sql") =
      "sql" ∧
    ¬ ((planAgent "Total revenue from Beverages in June 1997" []).date_range =
          some ⟨"1997-06-01", "1997-06-30"⟩ ∧
        routeAgent "Total revenue from Beverages in June 1997" (PredOutcome.returns "sql") =
          "hybrid") :=
  ⟨by decide, by decide, by decide⟩

/-- The marketing-calendar chunk that names the Summer Beverages 1997
campaign. -/
def c7Chunk : Chunk :=
  ⟨"marketing_calendar.md::chunk_0", "marketing_calendar.md",
    "Summer Beverages 1997 campaign: June promotions across Beverages.", 1⟩

set_option maxRecDepth 8000 in
/-- **C7 (amended).** For "Total revenue from Beverages in June 1997", with
a retrieved chunk naming the Summer Beverages 1997 campaign (and no
explicit date pattern earlier in the scan) and a predictor that does not
validly answer `sql`, the planner extracts category `Beverages` and the
June 1997 range, the synthesizer emits the filtered-sum template joining
the order-line, order, product and category entities with a category
equality filter and a date-between filter, and the resolved route is
hybrid. -/
theorem c7_literal_scenario :
    ∀ p : PredOutcome, (∀ s, p = PredOutcome.returns s → lowerStr (trimStr s) ≠ "sql") →
      planAgent "Total revenue from Beverages in June 1997" [c7Chunk] =
        { date_range := some ⟨"1997-06-01", "1997-06-30"⟩,
          category := some "Beverages", kpi := some "revenue" } ∧
      routeAgent "Total revenue from Beverages in June 1997" p = "hybrid" ∧
      ∃ sqlText,
        generate_sql "Total revenue from Beverages in June 1997" 0
            (planAgent "Total revenue from Beverages in June 1997" [c7Chunk]) =
          some sqlText ∧
        strHas sqlText "FROM \"Order Details\" od" = true ∧
        strHas sqlText "JOIN Orders o ON o.OrderID = od.OrderID" = true ∧
        strHas sqlText "JOIN Products p ON p.ProductID = od.ProductID" = true ∧
        strHas sqlText "JOIN Categories c ON c.CategoryID = p.CategoryID" = true ∧
        strHas sqlText "c.CategoryName = \x27Beverages\x27" = true ∧
        strHas sqlText "DATE(o.OrderDate) BETWEEN \x271997-06-01\x27 AND \x271997-06-30\x27" =
          true := by
  have hresolve : ∀ r : String, r ≠ "sql" → resolveRoute "hybrid" r = "hybrid" := by
    intro r hr
    simp only [resolveRoute]
    split
    · rfl
    · split
      · rfl
      · rename_i h1 h2
        simp at h1
        by_cases hrag : r = "rag"
        · subst hrag
          exact absurd (by decide) h2
        · exact h1 hrag hr
  intro p hp
  refine ⟨by decide, ?_, ?_⟩
  · cases p with
    | raises => decide
    | returns s =>
      by_cases hse : s = ""
      · subst hse
        decide
      · have hF : fallback_route "Total revenue from Beverages in June 1997" = "hybrid" := by
          decide
        simp only [routeAgent, hF]
        have hs' : (s == "") = false := by simpa using hse
        rw [hs']
        simp only [Bool.false_eq_true, if_false]
        exact hresolve _ (hp s rfl)
  · exact ⟨(generate_sql "Total revenue from Beverages in June 1997" 0
        (planAgent "Total revenue from Beverages in June 1997" [c7Chunk])).getD "",
      by decide, by decide, by decide, by decide, by decide, by decide, by decide⟩

/-- Witness for the amended C7 with a predictor that returns `rag`. -/
theorem c7_literal_scenario_witness :
    planAgent "Total revenue from Beverages in June 1997" [c7Chunk] =
      { date_range := some ⟨"1997-06-01", "1997-06-30"⟩,
        category := some "Beverages", kpi := some "revenue" } ∧
    routeAgent "Total revenue from Beverages in June 1997" (PredOutcome.returns "rag") =
      "hybrid" :=
  ⟨(c7_literal_scenario (PredOutcome.returns "rag")
      (fun s hs => by injection hs with h; subst h; decide)).1,
    (c7_literal_scenario (PredOutcome.returns "rag")
      (fun s hs => by injection hs with h; subst h; decide)).2.1⟩

/-- Characters with equal code points are equal. -/
theorem char_eq_of_toNat_eq {a b : Char} (h : a.toNat = b.toNat) : a = b := by
  apply Char.eq_of_val_eq
  apply UInt32.eq_of_toBitVec_eq
  exact BitVec.eq_of_toNat_eq h

/-- The code-point order is irreflexive. -/
theorem ltL_irrefl : ∀ l : List Char, ltL l l = false
  | [] => rfl
  | a :: as => by simp [ltL, ltL_irrefl as]

/-- The code-point order is transitive. -/
theorem ltL_trans : ∀ a b c : List Char, ltL a b = true → ltL b c = true → ltL a c = true
  | _, b, [], _, hbc => by simp [ltL] at hbc
  | [], b, c :: cs, _, _ => rfl
  | a :: as, [], c :: cs, hab, _ => by simp [ltL] at hab
  | a :: as, b :: bs, c :: cs, hab, hbc => by
    simp only [ltL] at hab hbc ⊢
    by_cases h1 : a.toNat = b.toNat
    · rw [if_pos h1] at hab
      by_cases h2 : b.toNat = c.toNat
      · rw [if_pos h2] at hbc
        rw [if_pos (h1.trans h2)]
        exact ltL_trans as bs cs hab hbc
      · rw [if_neg h2] at hbc
        have hbc' := of_decide_eq_true hbc
        rw [if_neg (by omega)]
        exact decide_eq_true (by omega)
    · rw [if_neg h1] at hab
      have hab' := of_decide_eq_true hab
      by_cases h2 : b.toNat = c.toNat
      · rw [if_neg (by omega)]
        exact decide_eq_true (by omega)
      · rw [if_neg h2] at hbc
        have hbc' := of_decide_eq_true hbc
        rw [if_neg (by omega)]
        exact decide_eq_true (by omega)

/-- The code-point order is asymmetric. -/
theorem ltL_asymm : ∀ a b : List Char, ltL a b = true → ltL b a = false
  | [], [], hab => by simp [ltL] at hab
  | [], b :: bs, _ => by simp [ltL]
  | a :: as, [], hab => by simp [ltL] at hab
  | a :: as, b :: bs, hab => by
    simp only [ltL] at hab ⊢
    by_cases h1 : a.toNat = b.toNat
    · rw [if_pos h1] at hab
      rw [if_pos h1.symm]
      exact ltL_asymm as bs hab
    · rw [if_neg h1] at hab
      have h2 := of_decide_eq_true hab
      rw [if_neg (by omega)]
      exact decide_eq_false (by omega)

/-- Mutually non-smaller lists are equal. -/
theorem ltL_conn : ∀ a b : List Char, ltL a b = false → ltL b a = false → a = b
  | [], [], _, _ => rfl
  | [], b :: bs, hab, _ => by simp [ltL] at hab
  | a :: as, [], _, hba => by simp [ltL] at hba
  | a :: as, b :: bs, hab, hba => by
    simp only [ltL] at hab hba
    by_cases h1 : a.toNat = b.toNat
    · rw [if_pos h1] at hab
      rw [if_pos h1.symm] at hba
      rw [char_eq_of_toNat_eq h1, ltL_conn as bs hab hba]
    · rw [if_neg h1] at hab
      rw [if_neg (fun h => h1 h.symm)] at hba
      have h2 := of_decide_eq_false hab
      have h3 := of_decide_eq_false hba
      exact absurd (by omega : a.toNat = b.toNat) h1

instance : IsTotal String strLe := by
  constructor
  intro a b
  by_cases h : ltL a.data b.data = true
  · exact Or.inl (ltL_asymm _ _ h)
  · exact Or.inr (by simpa using h)

instance : IsTrans String strLe := by
  constructor
  intro a b c hab hbc
  by_contra hcon
  have hca : ltL c.data a.data = true := by simpa [strLe] using hcon
  by_cases hbc2 : ltL b.data c.data = true
  · have hba := ltL_trans _ _ _ hbc2 hca
    exact absurd hba (by simp [strLe] at hab; simp [hab])
  · have hEq : b.data = c.data := ltL_conn _ _ (by simpa using hbc2) hbc
    rw [← hEq] at hca
    exact absurd hca (by simp [strLe] at hab; simp [hab])

/-- The chunk-citation loop is the truthy-id filter over the ids in order. -/
theorem chunkCitations_eq (chunks : List Chunk) :
    chunkCitations chunks =
      (chunks.map (fun c => c.chunk_id)).filter (fun s => !(s == "")) := by
  induction chunks with
  | nil => rfl
  | cons c cs ih =>
    by_cases h : c.chunk_id = "" <;>
      simp [chunkCitations, List.filter_cons, h, ih]

/-- **C8 (amended).** The citation list is the table part followed by the
chunk part: the table part is the deduplicated, code-point-sorted list of
the regex captures (the greedy word-and-whitespace run after each
`FROM`/`JOIN`, whitespace-trimmed, dropped when empty) of a non-empty
query, and the chunk part keeps every truthy chunk id in list order,
duplicates included. -/
theorem c8_citations (sql : String) (chunks : List Chunk) :
    build_citations sql chunks =
      extract_tables_from_sql sql ++
        (chunks.map (fun c => c.chunk_id)).filter (fun s => !(s == "")) ∧
    List.Sorted strLe (extract_tables_from_sql sql) ∧
    (extract_tables_from_sql sql).Nodup ∧
    (∀ t, t ∈ extract_tables_from_sql sql ↔ t ∈ table_captures sql ∧ sql ≠ "") := by
  refine ⟨by simp [build_citations, chunkCitations_eq], ?_, ?_, ?_⟩
  · by_cases h : sql = ""
    · simp [extract_tables_from_sql, h]
    · have h' : (sql == "") = false := by simpa using h
      simp only [extract_tables_from_sql, h', Bool.false_eq_true, if_false]
      exact List.sorted_insertionSort strLe _
  · by_cases h : sql = ""
    · simp [extract_tables_from_sql, h]
    · have h' : (sql == "") = false := by simpa using h
      simp only [extract_tables_from_sql, h', Bool.false_eq_true, if_false]
      exact ((List.perm_insertionSort strLe _).nodup_iff).mpr (List.nodup_dedup _)
  · intro t
    by_cases h : sql = ""
    · simp [extract_tables_from_sql, h]
    · have h' : (sql == "") = false := by simpa using h
      simp only [extract_tables_from_sql, h', Bool.false_eq_true, if_false]
      rw [(List.perm_insertionSort strLe _).mem_iff, List.mem_dedup]
      simp [h]

/-- **C8 (counterexample).** A query referencing the `Orders` entity from
both its `FROM` and its `JOIN` clause yields a single deduplicated citation,
not one occurrence per reference as the claim states. -/
theorem c8_citations_counterexample :
    build_citations "SELECT * FROM \"Orders\" o JOIN \"Orders\" o2 ON o2.A = o.A;" [] =
      ["Orders"] ∧
    build_citations "SELECT * FROM \"Orders\" o JOIN \"Orders\" o2 ON o2.A = o.A;" [] ≠
      ["Orders", "Orders"] :=
  ⟨by decide, by decide⟩

/-- **C10.** A query whose similarity against every indexed chunk is zero
retrieves nothing: `search` returns the empty list rather than `top_k`
zero-score chunks. -/
theorem c10_zero_scores_empty (sims : List ℚ) (corpus : List IndexedChunk) (top_k : Nat)
    (h : ∀ s ∈ sims, s = 0) :
    search sims corpus top_k = [] := by
  have hall : sims.all (fun s => s == 0) = true := by
    rw [List.all_eq_true]
    intro s hs
    simpa using h s hs
  simp [search, hall]

/-- Witness for C10 on a concrete two-chunk corpus. -/
theorem c10_zero_scores_empty_witness :
    (∀ s ∈ [(0 : ℚ), 0], s = 0) ∧
    search [(0 : ℚ), 0]
      [⟨"product_policy.md::chunk_0", "product_policy.md", "Returns are accepted."⟩,
       ⟨"kpi_definitions.md::chunk_0", "kpi_definitions.md", "AOV is revenue per order."⟩]
      5 = [] :=
  ⟨by decide,
    c10_zero_scores_empty [(0 : ℚ), 0]
      [⟨"product_policy.md::chunk_0", "product_policy.md", "Returns are accepted."⟩,
       ⟨"kpi_definitions.md::chunk_0", "kpi_definitions.md", "AOV is revenue per order."⟩]
      5 (by decide)⟩
